import Mathlib

/-!
Verification of the receipt-OCR ensemble script (`image_recognition_commandr.py`).

The script has two operations and a driver:
  * `describe_image_with_model` (the Extractor): reads an image file, base64-encodes it
    into a JPEG data URL, posts a chat request to one named provider, and returns the
    first completion choice's message content on HTTP 200, or a formatted failure string.
  * `select_best_output_with_command_r` (the Selector): renders a judge instruction that
    embeds every candidate labeled "Option N", posts it to the fixed judge model, and
    handles the response the same way.
  * a driver that runs the Extractor once per entry of a fixed model list and then runs
    the Selector once on the collected outputs.

The embedding below is a shallow model: the file system is a partial map from paths to
byte lists, the network is a function from the constructed request to an HTTP outcome
(a response with status code, body text and parsed JSON body, or a transport exception),
and Python exceptions (FileNotFoundError, KeyError, IndexError, TypeError) are the
`Except` error channel.  Each function additionally returns the list of HTTP requests it
issued, in order, so that claims about which calls are made can be stated.
-/

namespace ReceiptOCR

/-- A parsed JSON value, the result of `response.json()`. -/
inductive Json where
  | null
  | bool (b : Bool)
  | num (n : Int)
  | str (s : String)
  | arr (elems : List Json)
  | obj (fields : List (String × Json))

/-- The Python exceptions the script can raise (it catches only
`requests.exceptions.RequestException`, modelled separately as a transport outcome). -/
inductive PyError where
  | fileNotFound (path : String)
  | keyError (key : String)
  | indexError
  | typeError
deriving Repr, DecidableEq

/-- Python `d[k]` on a parsed JSON value: `KeyError` when the key is absent,
`TypeError` when the value is not a dict. -/
def Json.item (j : Json) (k : String) : Except PyError Json :=
  match j with
  | .obj fields =>
    match fields.lookup k with
    | some v => .ok v
    | none => .error (.keyError k)
  | _ => .error .typeError

/-- Python `l[i]` on a parsed JSON value: `IndexError` when out of range,
`TypeError` when the value is not a list. -/
def Json.index (j : Json) (i : Nat) : Except PyError Json :=
  match j with
  | .arr elems =>
    match elems.get? i with
    | some v => .ok v
    | none => .error .indexError
  | _ => .error .typeError

/-- The unguarded access `result['choices'][0]['message']['content']` shared by both
functions (lines 55 and 134 of the source). -/
def firstChoiceContent (result : Json) : Except PyError Json := do
  let choices ← result.item "choices"
  let choice0 ← choices.index 0
  let message ← choice0.item "message"
  message.item "content"

/-- An HTTP response as seen through the `requests` library: `status_code`, raw body
`text`, and `jsonBody`, the JSON parse of the body as returned by `response.json()`
(carried explicitly rather than re-parsed from `text`). -/
structure HttpResponse where
  status_code : Nat
  text : String
  jsonBody : Json

/-- Outcome of `requests.post`: either a response, or a raised
`requests.exceptions.RequestException` carrying its message. -/
inductive HttpOutcome where
  | resp (r : HttpResponse)
  | exn (msg : String)

/-- One item of a chat message content list: `{"type": "text", ...}` or
`{"type": "image_url", ...}`. -/
inductive ContentItem where
  | text (s : String)
  | image_url (url : String)

/-- A chat message content: a list of items (Extractor) or a plain string (Selector). -/
inductive MessageContent where
  | parts (items : List ContentItem)
  | str (s : String)

/-- One chat message turn. -/
structure ChatMessage where
  role : String
  content : MessageContent

/-- The JSON payload posted to the chat completions endpoint. -/
structure Payload where
  model : String
  messages : List ChatMessage

/-- One outbound HTTP request: url, headers, payload and timeout, exactly the arguments
of `requests.post` in the source. -/
structure Request where
  url : String
  headers : List (String × String)
  payload : Payload
  timeout : Nat

def OPENROUTER_API_KEY : String := "Your-API"

def api_url : String := "https://openrouter.ai/api/v1/chat/completions"

def request_headers : List (String × String) :=
  [("Authorization", "Bearer " ++ OPENROUTER_API_KEY),
   ("Content-Type", "application/json")]

/-- The base64 alphabet of RFC 4648, as used by `base64.b64encode`. -/
def base64Chars : List Char :=
  "ABCDEFGHIJKLMNOPQRSTUVWXYZabcdefghijklmnopqrstuvwxyz0123456789+/".toList

/-- The base64 character for a sextet value. -/
def sextet (n : Nat) : Char := base64Chars.getD n 'A'

/-- `base64.b64encode` on a byte sequence (each entry in `0..255`): three bytes become
four sextet characters, with `=` padding for a trailing group of one or two bytes. -/
def base64Encode : List Nat → String
  | [] => ""
  | [b1] =>
    String.mk [sextet (b1 / 4), sextet (b1 % 4 * 16)] ++ "=="
  | [b1, b2] =>
    String.mk [sextet (b1 / 4), sextet (b1 % 4 * 16 + b2 / 16), sextet (b2 % 16 * 4)] ++ "="
  | b1 :: b2 :: b3 :: rest =>
    String.mk [sextet (b1 / 4), sextet (b1 % 4 * 16 + b2 / 16),
               sextet (b2 % 16 * 4 + b3 / 64), sextet (b3 % 64)] ++ base64Encode rest

/-- The data URL built on line 23 of the source: a fixed `image/jpeg` media-type
declaration regardless of the actual bytes, followed by their base64 encoding. -/
def image_content_of (bytes : List Nat) : String :=
  "data:image/jpeg;base64," ++ base64Encode bytes

/-- The request constructed by `describe_image_with_model` (lines 26-51): a single user
turn whose content list holds the instruction text and the image data URL. -/
def describe_request (bytes : List Nat) (model_name instruction : String) : Request :=
  { url := api_url
    headers := request_headers
    payload := { model := model_name
                 messages := [{ role := "user"
                                content := .parts [.text instruction,
                                                   .image_url (image_content_of bytes)] }] }
    timeout := 60 }

/-- The Extractor, `describe_image_with_model(image_path, model_name, instruction)`.
`fs` is the file system (path to file bytes), `net` the network.  Returns the requests
issued together with the Python result: `.error` models a raised exception, `.ok` the
returned value.  Opening a missing file raises before any request is issued; only
`requests.exceptions.RequestException` is caught, so a malformed 200 body raises. -/
def describe_image_with_model (fs : String → Option (List Nat)) (net : Request → HttpOutcome)
    (image_path model_name instruction : String) :
    List Request × Except PyError Json :=
  match fs image_path with
  | none => ([], .error (.fileNotFound image_path))
  | some bytes =>
    let req := describe_request bytes model_name instruction
    match net req with
    | .exn e => ([req], .ok (.str ("Request failed due to an exception: " ++ e)))
    | .resp response =>
      if response.status_code = 200 then
        ([req], firstChoiceContent response.jsonBody)
      else
        ([req], .ok (.str ("Request failed with status code " ++ toString response.status_code
                             ++ ": " ++ response.text)))

/-- Python `sep.join(l)`. -/
def join_with (sep : String) : List String → String
  | [] => ""
  | [x] => x
  | x :: y :: rest => x ++ sep ++ join_with sep (y :: rest)

/-- One labeled candidate block, `f"Option {i+1}:\n{output}"` with `i` the 0-based
position from `enumerate`. -/
def option_block (i : Nat) (output : String) : String :=
  "Option " ++ toString (i + 1) ++ ":\n" ++ output

/-- Line 73 of the source:
`"\n\n".join([f"Option {i+1}:\n{output}" for i, output in enumerate(outputs)])`. -/
def formatted_outputs (outputs : List String) : String :=
  join_with "\n\n" (outputs.enum.map fun p => option_block p.1 p.2)

/-- The 20-space indentation inside the judge f-string literal. -/
def ind : String := "                    "

/-- The judge f-string text before the `formatted_outputs` interpolation point
(lines 75-104 of the source, byte for byte, trailing spaces included). -/
def judge_template_before : String :=
  "\n"
  ++ ind ++ "You are a decision engine called Command-R.\n"
  ++ "\n"
  ++ ind ++ "Your task is to analyze multiple LaTeX tables extracted from a receipt and select the most accurate and complete one. \n"
  ++ "\n"
  ++ ind ++ "### **Receipt Item Details**\n"
  ++ ind ++ "- Each item is represented in the receipt as a line containing:\n"
  ++ ind ++ "- `Item Code`: A unique numeric or alphanumeric code.\n"
  ++ ind ++ "- `Item Name`: The name of the product.\n"
  ++ ind ++ "- `Item Price`: The price of the product in the format `X.XX EUR`.\n"
  ++ ind ++ "\n"
  ++ ind ++ "### **Accuracy Validation Criteria**\n"
  ++ ind ++ "1. The LaTeX table must match the receipt format:\n"
  ++ ind ++ "- Each row in the table must correspond to an item in the receipt with `Item Code`, `Item Name`, and `Item Price`.\n"
  ++ ind ++ "- The **Total Price** must match the sum of all items in the receipt.\n"
  ++ ind ++ "2. Items must:\n"
  ++ ind ++ "- Have unique `Item Codes`.\n"
  ++ ind ++ "- Contain clear, descriptive `Item Names` without truncations or inaccuracies.\n"
  ++ ind ++ "- Include correct `Item Prices` as per the receipt.\n"
  ++ ind ++ "3. The table structure must:\n"
  ++ ind ++ "- Start with the headers: `Item Code`, `Item Name`, `Item Price`, `Total Price`.\n"
  ++ ind ++ "- Include a **final row** with the Total Price clearly labeled.\n"
  ++ "\n"
  ++ ind ++ "### **Instructions**\n"
  ++ ind ++ "- Analyze the LaTeX tables below.\n"
  ++ ind ++ "- Compare the tables for both logical accuracy and structural correctness.\n"
  ++ ind ++ "- Return only the LaTeX code of the best table. If no table meets the criteria, return an empty response.\n"
  ++ ind ++ "- Do not include any explanations or additional text.\n"
  ++ "\n"
  ++ ind ++ "### **LaTeX Tables to Analyze**\n"

/-- The judge f-string text after the interpolation point (lines 105-107). -/
def judge_template_after : String := "\n\n    "

/-- The full judge instruction rendered by `select_best_output_with_command_r`. -/
def judge_instruction (outputs : List String) : String :=
  judge_template_before ++ formatted_outputs outputs ++ judge_template_after

/-- The request constructed by `select_best_output_with_command_r` (lines 109-130):
model `cohere/command-r`, a single user turn whose content is the judge instruction. -/
def judge_request (outputs : List String) : Request :=
  { url := api_url
    headers := request_headers
    payload := { model := "cohere/command-r"
                 messages := [{ role := "user"
                                content := .str (judge_instruction outputs) }] }
    timeout := 60 }

/-- The Selector, `select_best_output_with_command_r(outputs)`.  Same channel as the
Extractor: requests issued, then raised exception or returned value. -/
def select_best_output_with_command_r (net : Request → HttpOutcome) (outputs : List String) :
    List Request × Except PyError Json :=
  let req := judge_request outputs
  match net req with
  | .exn e => ([req], .ok (.str ("Request failed due to an exception: " ++ e)))
  | .resp response =>
    if response.status_code = 200 then
      ([req], firstChoiceContent response.jsonBody)
    else
      ([req], .ok (.str ("Request failed with status code " ++ toString response.status_code
                           ++ ": " ++ response.text)))

/-- The module-level OCR instruction (lines 142-155 of the source, byte for byte). -/
def instruction : String :=
  "Extract the following information from this receipt:\n"
  ++ "1. Item Code: A unique code that corresponds to each individual item. Each item has only one unique code.\n"
  ++ "2. Item Name: The name of the item as it appears on the receipt.\n"
  ++ "3. Item Price: The price of each item as listed on the receipt.\n"
  ++ "4. Total Price: The final price at the bottom of the receipt.\n"
  ++ "\n"
  ++ "Organize the extracted data into a LaTeX table format with the following headers: `Item Code`, `Item Name`, `Item Price`, and `Total Price`. Ensure that:\n"
  ++ "- Each row corresponds to a specific item on the receipt.\n"
  ++ "- Each item has only one unique code.\n"
  ++ "- The final row includes the total price.\n"
  ++ "\n"
  ++ "Return only the LaTeX code for the table. Do not include any preamble, explanations, or additional text.\n"
  ++ "\n"

/-- The module-level receipt image path (line 158). -/
def image_path : String := "data/receipt4.jpeg"

/-- The fixed model list of the driver (lines 161-165): (name, description) pairs. -/
def models : List (String × String) :=
  [("mistralai/pixtral-12b", "PixTral 12B"),
   ("qwen/qwen-2-vl-7b-instruct", "Qwen-2V"),
   ("meta-llama/llama-3.2-11b-vision-instruct:free", "LLaMA-3.2")]

mutual

/-- Python `str()` of a JSON-like value, as applied by f-string interpolation when a
collected output is embedded in the judge instruction.  A string is passed through
unchanged; containers are rendered in Python display form (this model omits the escaping
Python `repr` applies inside nested strings, a case no claim exercises). -/
def pyStr : Json → String
  | .null => "None"
  | .bool true => "True"
  | .bool false => "False"
  | .num n => toString n
  | .str s => s
  | .arr elems => "[" ++ pyStrJoin elems ++ "]"
  | .obj fields => "\x7b" ++ pyStrObjJoin fields ++ "\x7d"

/-- Comma-joined Python rendering of list elements. -/
def pyStrJoin : List Json → String
  | [] => ""
  | [x] => pyStr x
  | x :: y :: rest => pyStr x ++ ", " ++ pyStrJoin (y :: rest)

/-- Comma-joined Python rendering of dict entries. -/
def pyStrObjJoin : List (String × Json) → String
  | [] => ""
  | [kv] => "\x27" ++ kv.1 ++ "\x27: " ++ pyStr kv.2
  | kv :: kv2 :: rest => "\x27" ++ kv.1 ++ "\x27: " ++ pyStr kv.2 ++ ", " ++ pyStrObjJoin (kv2 :: rest)

end

/-- The driver loop (lines 168-172): one Extractor call per entry of the model list, in
order, each appended output collected; a raised exception aborts the loop and
propagates.  Returns all requests issued and the collected outputs. -/
def run_extractions (fs : String → Option (List Nat)) (net : Request → HttpOutcome) :
    List (String × String) → List Request × Except PyError (List Json)
  | [] => ([], .ok [])
  | m :: rest =>
    match describe_image_with_model fs net image_path m.1 instruction with
    | (tr, .error e) => (tr, .error e)
    | (tr, .ok out) =>
      match run_extractions fs net rest with
      | (tr2, .error e) => (tr ++ tr2, .error e)
      | (tr2, .ok outs) => (tr ++ tr2, .ok (out :: outs))

/-- The whole pipeline (lines 168-177): collect one output per model, then call the
Selector once on the collected outputs.  Each output is rendered through `pyStr`, which
is where the Selector's f-string would apply `str()`; on a string output this is the
identity. -/
def run_pipeline (fs : String → Option (List Nat)) (net : Request → HttpOutcome)
    (ms : List (String × String)) : List Request × Except PyError Json :=
  match run_extractions fs net ms with
  | (tr, .error e) => (tr, .error e)
  | (tr, .ok outs) =>
    match select_best_output_with_command_r net (outs.map pyStr) with
    | (tr2, res) => (tr ++ tr2, res)

/-- The script's `outputs` value (with its request trace), at the fixed model list. -/
def outputs (fs : String → Option (List Nat)) (net : Request → HttpOutcome) :
    List Request × Except PyError (List Json) :=
  run_extractions fs net models

/-- The script's `best_output` value (with the full request trace). -/
def best_output (fs : String → Option (List Nat)) (net : Request → HttpOutcome) :
    List Request × Except PyError Json :=
  run_pipeline fs net models

/-! Concrete fixtures used to evaluate the model at specific inputs. -/

/-- A well-formed success payload whose first choice message content is `t`. -/
def sample_json (t : String) : Json :=
  .obj [("choices", .arr [.obj [("message", .obj [("content", .str t)])]])]

/-- A network that answers every request with HTTP 200 and a well-formed payload. -/
def net_ok (t : String) : Request → HttpOutcome :=
  fun _ => .resp { status_code := 200, text := "", jsonBody := sample_json t }

/-- A network on which every request raises a transport exception. -/
def net_exn : Request → HttpOutcome := fun _ => .exn "boom"

/-- A network that answers every request with the given failure status and body. -/
def net_fail (code : Nat) (body : String) : Request → HttpOutcome :=
  fun _ => .resp { status_code := code, text := body, jsonBody := .null }

/-- A network that answers HTTP 200 with a payload whose choices list is empty. -/
def net_empty_choices : Request → HttpOutcome :=
  fun _ => .resp { status_code := 200, text := "", jsonBody := .obj [("choices", .arr [])] }

/-- A file system with no files. -/
def fs_missing : String → Option (List Nat) := fun _ => none

/-- A file system on which every path holds the bytes `[1, 2, 3]`. -/
def fs_sample : String → Option (List Nat) := fun _ => some [1, 2, 3]

/-! Helper lemmas about the embedded operations. -/

/-- When the image file exists, the Extractor issues exactly its one constructed
request, whatever the network does. -/
theorem describe_trace_of_some (fs : String → Option (List Nat)) (net : Request → HttpOutcome)
    (ip mn instr : String) (bytes : List Nat) (hfs : fs ip = some bytes) :
    (describe_image_with_model fs net ip mn instr).1 = [describe_request bytes mn instr] := by
  unfold describe_image_with_model
  rw [hfs]
  cases hnet : net (describe_request bytes mn instr) with
  | exn e => simp [hnet]
  | resp r =>
    by_cases h : r.status_code = 200 <;> simp [hnet, h]

/-- The Selector issues exactly its one judge request, whatever the network does. -/
theorem select_trace (net : Request → HttpOutcome) (cands : List String) :
    (select_best_output_with_command_r net cands).1 = [judge_request cands] := by
  unfold select_best_output_with_command_r
  cases hnet : net (judge_request cands) with
  | exn e => simp [hnet]
  | resp r =>
    by_cases h : r.status_code = 200 <;> simp [hnet, h]

/-- Every sextet character is drawn from the base64 alphabet. -/
theorem sextet_mem (n : Nat) : sextet n ∈ base64Chars := by
  unfold sextet
  rw [List.getD_eq_getElem?_getD]
  cases h : base64Chars[n]? with
  | none => simp; decide
  | some c => simpa using List.getElem?_mem h

/-- The base64 encoding of `n` bytes has length `4 * ceil(n / 3)`. -/
theorem base64Encode_length (l : List Nat) :
    (base64Encode l).length = 4 * ((l.length + 2) / 3) := by
  induction l using base64Encode.induct with
  | case1 => rfl
  | case2 b1 =>
    rw [show base64Encode [b1]
          = String.mk [sextet (b1 / 4), sextet (b1 % 4 * 16)] ++ "==" from rfl,
        String.length_append, String.length_mk,
        show ("==" : String).length = 2 from rfl]
    simp [List.length_cons]
  | case3 b1 b2 =>
    rw [show base64Encode [b1, b2]
          = String.mk [sextet (b1 / 4), sextet (b1 % 4 * 16 + b2 / 16),
              sextet (b2 % 16 * 4)] ++ "=" from rfl,
        String.length_append, String.length_mk,
        show ("=" : String).length = 1 from rfl]
    simp [List.length_cons]
  | case4 b1 b2 b3 rest ih =>
    rw [show base64Encode (b1 :: b2 :: b3 :: rest)
          = String.mk [sextet (b1 / 4), sextet (b1 % 4 * 16 + b2 / 16),
              sextet (b2 % 16 * 4 + b3 / 64), sextet (b3 % 64)] ++ base64Encode rest from rfl,
        String.length_append, String.length_mk, ih]
    simp [List.length_cons]
    omega

/-- Every character of a base64 encoding is an alphabet character or padding. -/
theorem base64Encode_alphabet (l : List Nat) :
    ∀ c ∈ (base64Encode l).data, c ∈ base64Chars ∨ c = '=' := by
  induction l using base64Encode.induct with
  | case1 => intro c hc; simp [base64Encode] at hc
  | case2 b1 =>
    intro c hc
    rw [show base64Encode [b1]
          = String.mk [sextet (b1 / 4), sextet (b1 % 4 * 16)] ++ "==" from rfl] at hc
    simp [String.data_append] at hc
    rcases hc with h | h | h
    · exact .inl (h ▸ sextet_mem _)
    · exact .inl (h ▸ sextet_mem _)
    · exact .inr h
  | case3 b1 b2 =>
    intro c hc
    rw [show base64Encode [b1, b2]
          = String.mk [sextet (b1 / 4), sextet (b1 % 4 * 16 + b2 / 16),
              sextet (b2 % 16 * 4)] ++ "=" from rfl] at hc
    simp [String.data_append] at hc
    rcases hc with h | h | h | h
    · exact .inl (h ▸ sextet_mem _)
    · exact .inl (h ▸ sextet_mem _)
    · exact .inl (h ▸ sextet_mem _)
    · exact .inr h
  | case4 b1 b2 b3 rest ih =>
    intro c hc
    rw [show base64Encode (b1 :: b2 :: b3 :: rest)
          = String.mk [sextet (b1 / 4), sextet (b1 % 4 * 16 + b2 / 16),
              sextet (b2 % 16 * 4 + b3 / 64), sextet (b3 % 64)]
            ++ base64Encode rest from rfl] at hc
    simp [String.data_append] at hc
    rcases hc with h | h | h | h | h
    · exact .inl (h ▸ sextet_mem _)
    · exact .inl (h ▸ sextet_mem _)
    · exact .inl (h ▸ sextet_mem _)
    · exact .inl (h ▸ sextet_mem _)
    · exact ih c (by simpa using h)

theorem join_with_cons_cons (sep x y : String) (rest : List String) :
    join_with sep (x :: y :: rest) = x ++ sep ++ join_with sep (y :: rest) := rfl

theorem map_enumFrom_cons (k : Nat) (s : String) (rest : List String)
    (f : Nat × String → String) :
    (List.enumFrom k (s :: rest)).map f = f (k, s) :: (List.enumFrom (k + 1) rest).map f := by
  simp [List.enumFrom]

/-- In the joined option list, the block for position `n` appears as a substring. -/
theorem join_enum_split (sep : String) :
    ∀ (l : List String) (k n : Nat) (hn : n < l.length),
      ∃ a b, join_with sep ((List.enumFrom k l).map fun p => option_block p.1 p.2)
        = a ++ option_block (k + n) (l.get ⟨n, hn⟩) ++ b := by
  intro l
  induction l with
  | nil => intro k n hn; exact absurd hn (by simp)
  | cons s rest ih =>
    intro k n hn
    cases n with
    | zero =>
      cases rest with
      | nil =>
        refine ⟨"", "", ?_⟩
        simp [List.enumFrom, join_with, String.empty_append, String.append_empty]
      | cons r rs =>
        refine ⟨"", sep ++ join_with sep ((List.enumFrom (k + 1) (r :: rs)).map
                  fun p => option_block p.1 p.2), ?_⟩
        simp only [map_enumFrom_cons, join_with_cons_cons]
        simp [String.empty_append, String.append_assoc]
    | succ n' =>
      have hn' : n' < rest.length := by simpa using hn
      cases rest with
      | nil => simp at hn'
      | cons r rs =>
        obtain ⟨a, b, hab⟩ := ih (k + 1) n' hn'
        refine ⟨option_block k s ++ sep ++ a, b, ?_⟩
        simp only [map_enumFrom_cons, join_with_cons_cons] at hab ⊢
        rw [hab]
        have hk : k + 1 + n' = k + (n' + 1) := by omega
        rw [hk]
        simp [String.append_assoc]

/-- In the joined option list, the blocks for positions `m < n` appear in that order. -/
theorem join_enum_split₂ (sep : String) :
    ∀ (l : List String) (k m n : Nat) (hm : m < l.length) (hn : n < l.length), m < n →
      ∃ a b c, join_with sep ((List.enumFrom k l).map fun p => option_block p.1 p.2)
        = a ++ option_block (k + m) (l.get ⟨m, hm⟩) ++ b
            ++ option_block (k + n) (l.get ⟨n, hn⟩) ++ c := by
  intro l
  induction l with
  | nil => intro k m n hm hn hmn; exact absurd hm (by simp)
  | cons s rest ih =>
    intro k m n hm hn hmn
    cases n with
    | zero => omega
    | succ n' =>
      have hn' : n' < rest.length := by simpa using hn
      cases rest with
      | nil => simp at hn'
      | cons r rs =>
        cases m with
        | zero =>
          obtain ⟨a, b, hab⟩ := join_enum_split sep (r :: rs) (k + 1) n' hn'
          refine ⟨"", sep ++ a, b, ?_⟩
          simp only [map_enumFrom_cons, join_with_cons_cons] at hab ⊢
          rw [hab]
          have hk : k + 1 + n' = k + (n' + 1) := by omega
          rw [hk]
          simp [String.empty_append, String.append_assoc]
        | succ m' =>
          have hm' : m' < (r :: rs).length := by simpa using hm
          obtain ⟨a, b, c, habc⟩ := ih (k + 1) m' n' hm' hn' (by omega)
          refine ⟨option_block k s ++ sep ++ a, b, c, ?_⟩
          simp only [map_enumFrom_cons, join_with_cons_cons] at habc ⊢
          rw [habc]
          have hk1 : k + 1 + m' = k + (m' + 1) := by omega
          have hk2 : k + 1 + n' = k + (n' + 1) := by omega
          rw [hk1, hk2]
          simp [String.append_assoc]

/-- When the image file exists and every extraction returns a value, the driver loop
issues exactly one request per model, in list order, and collects exactly one output per
model, in the same order. -/
theorem run_extractions_spec (fs : String → Option (List Nat)) (net : Request → HttpOutcome)
    (bytes : List Nat) (hfs : fs image_path = some bytes) :
    ∀ ms : List (String × String),
      (∀ m ∈ ms, ∃ v, (describe_image_with_model fs net image_path m.1 instruction).2 = .ok v) →
      ∃ outs : List Json,
        run_extractions fs net ms
          = (ms.map fun m => describe_request bytes m.1 instruction, .ok outs)
        ∧ outs.length = ms.length
        ∧ ∀ n (h1 : n < ms.length) (h2 : n < outs.length),
            (describe_image_with_model fs net image_path (ms.get ⟨n, h1⟩).1 instruction).2
              = .ok (outs.get ⟨n, h2⟩) := by
  intro ms
  induction ms with
  | nil =>
    intro _
    exact ⟨[], rfl, rfl, fun n h1 h2 => absurd h1 (by simp)⟩
  | cons m rest ih =>
    intro hok
    obtain ⟨v, hv⟩ := hok m (by simp)
    obtain ⟨outs, hrun, hlen, hget⟩ := ih (fun m' hm' => hok m' (by simp [hm']))
    have htr : (describe_image_with_model fs net image_path m.1 instruction).1
        = [describe_request bytes m.1 instruction] :=
      describe_trace_of_some fs net image_path m.1 instruction bytes hfs
    have hpair : describe_image_with_model fs net image_path m.1 instruction
        = ([describe_request bytes m.1 instruction], .ok v) := by
      rw [← htr, ← hv]
    refine ⟨v :: outs, ?_, ?_, ?_⟩
    · simp [run_extractions, hpair, hrun]
    · simp [hlen]
    · intro n h1 h2
      cases n with
      | zero => simpa using hv
      | succ n' =>
        have h1' : n' < rest.length := by simpa using h1
        have h2' : n' < outs.length := by simpa using h2
        simpa using hget n' h1' h2'

/-! Claim theorems. -/

/-- C1: for a provider response with transport-level success status (HTTP 200) whose
payload carries a first choice message text, the Extractor returns that text verbatim
(identity pass-through), and the Selector does the same for the judge's response. -/
theorem c1_success_passthrough
    (fs : String → Option (List Nat)) (net : Request → HttpOutcome)
    (ip mn instr : String) (bytes : List Nat) (cands : List String)
    (r rj : HttpResponse) (t tj : String)
    (hfs : fs ip = some bytes)
    (hnet : net (describe_request bytes mn instr) = .resp r)
    (hst : r.status_code = 200)
    (hc : firstChoiceContent r.jsonBody = .ok (.str t))
    (hnetj : net (judge_request cands) = .resp rj)
    (hstj : rj.status_code = 200)
    (hcj : firstChoiceContent rj.jsonBody = .ok (.str tj)) :
    (describe_image_with_model fs net ip mn instr).2 = .ok (.str t)
    ∧ (select_best_output_with_command_r net cands).2 = .ok (.str tj) := by
  constructor
  · unfold describe_image_with_model
    rw [hfs]
    simp [hnet, hst, hc]
  · unfold select_best_output_with_command_r
    simp [hnetj, hstj, hcj]

/-- C1 witness: concrete success responses are passed through verbatim. -/
theorem c1_witness :
    (describe_image_with_model fs_sample (net_ok "T") "p" "m" "i").2 = .ok (.str "T")
    ∧ (select_best_output_with_command_r (net_ok "T") ["c"]).2 = .ok (.str "T") :=
  c1_success_passthrough fs_sample (net_ok "T") "p" "m" "i" [1, 2, 3] ["c"]
    { status_code := 200, text := "", jsonBody := sample_json "T" }
    { status_code := 200, text := "", jsonBody := sample_json "T" } "T" "T"
    rfl rfl rfl rfl rfl rfl rfl

/-- C3 counterexample: on the empty candidates sequence the Selector does issue a
provider call, and the judge instruction it sends embeds zero options (the rendered
option list is the empty string) — there is no early return. -/
theorem c3_counterexample :
    (select_best_output_with_command_r net_exn []).1 = [judge_request []]
    ∧ formatted_outputs [] = ""
    ∧ judge_instruction [] = judge_template_before ++ "" ++ judge_template_after :=
  ⟨select_trace net_exn [], rfl, rfl⟩

/-- C3 amended: for the empty candidates sequence the Selector still invokes the judge
exactly once, with an instruction embedding zero options; it has no special case. -/
theorem c3_amended (net : Request → HttpOutcome) :
    (select_best_output_with_command_r net []).1 = [judge_request []]
    ∧ judge_instruction [] = judge_template_before ++ judge_template_after := by
  refine ⟨select_trace net [], ?_⟩
  have h : judge_instruction [] = (judge_template_before ++ "") ++ judge_template_after := rfl
  rw [h, String.append_empty]

/-- C4 counterexample: for a missing image file the Extractor raises
`FileNotFoundError` — this failure is signaled as a raised error, not swallowed into a
returned string. -/
theorem c4_counterexample :
    (describe_image_with_model fs_missing net_exn "p" "m" "i").2 = .error (.fileNotFound "p") :=
  rfl

/-- C4 amended: once the request is issued, every transport-level failure (raised
transport exception or non-success status) is swallowed into the returned string and no
error type is signaled, for the Extractor and the Selector alike; a missing image file
and a success payload without the expected choices structure, by contrast, raise. -/
theorem c4_transport_failures_swallowed
    (fs : String → Option (List Nat)) (net : Request → HttpOutcome)
    (ip mn instr : String) (bytes : List Nat) (cands : List String)
    (hfs : fs ip = some bytes) :
    (∀ e, net (describe_request bytes mn instr) = .exn e →
      (describe_image_with_model fs net ip mn instr).2
        = .ok (.str ("Request failed due to an exception: " ++ e)))
    ∧ (∀ r, net (describe_request bytes mn instr) = .resp r → r.status_code ≠ 200 →
      (describe_image_with_model fs net ip mn instr).2
        = .ok (.str ("Request failed with status code " ++ toString r.status_code
                       ++ ": " ++ r.text)))
    ∧ (∀ e, net (judge_request cands) = .exn e →
      (select_best_output_with_command_r net cands).2
        = .ok (.str ("Request failed due to an exception: " ++ e)))
    ∧ (∀ r, net (judge_request cands) = .resp r → r.status_code ≠ 200 →
      (select_best_output_with_command_r net cands).2
        = .ok (.str ("Request failed with status code " ++ toString r.status_code
                       ++ ": " ++ r.text))) := by
  refine ⟨fun e hnet => ?_, fun r hnet hr => ?_, fun e hnet => ?_, fun r hnet hr => ?_⟩
  · unfold describe_image_with_model
    rw [hfs]
    simp [hnet]
  · unfold describe_image_with_model
    rw [hfs]
    simp [hnet, hr]
  · unfold select_best_output_with_command_r
    simp [hnet]
  · unfold select_best_output_with_command_r
    simp [hnet, hr]

/-- C4 witness: a concrete transport exception is swallowed into the returned string by
both operations. -/
theorem c4_witness :
    (describe_image_with_model fs_sample net_exn "p" "m" "i").2
      = .ok (.str ("Request failed due to an exception: " ++ "boom"))
    ∧ (select_best_output_with_command_r net_exn ["x"]).2
      = .ok (.str ("Request failed due to an exception: " ++ "boom")) :=
  ⟨(c4_transport_failures_swallowed fs_sample net_exn "p" "m" "i" [1, 2, 3] ["x"] rfl).1
      "boom" rfl,
   (c4_transport_failures_swallowed fs_sample net_exn "p" "m" "i" [1, 2, 3] ["x"] rfl).2.2.1
      "boom" rfl⟩

/-- C5: on a non-success status, the returned string is exactly
`"Request failed with status code " ++ status ++ ": " ++ body`, so it contains the exact
status code and the exact body as substrings, for the Extractor and the Selector. -/
theorem c5_failure_string_exact
    (fs : String → Option (List Nat)) (net : Request → HttpOutcome)
    (ip mn instr : String) (bytes : List Nat) (cands : List String)
    (r rj : HttpResponse)
    (hfs : fs ip = some bytes)
    (hnet : net (describe_request bytes mn instr) = .resp r)
    (hst : r.status_code ≠ 200)
    (hnetj : net (judge_request cands) = .resp rj)
    (hstj : rj.status_code ≠ 200) :
    ((describe_image_with_model fs net ip mn instr).2
        = .ok (.str ("Request failed with status code " ++ toString r.status_code
                       ++ ": " ++ r.text)))
    ∧ (∃ a b, "Request failed with status code " ++ toString r.status_code ++ ": " ++ r.text
          = a ++ toString r.status_code ++ b)
    ∧ (∃ a b, "Request failed with status code " ++ toString r.status_code ++ ": " ++ r.text
          = a ++ r.text ++ b)
    ∧ ((select_best_output_with_command_r net cands).2
        = .ok (.str ("Request failed with status code " ++ toString rj.status_code
                       ++ ": " ++ rj.text))) := by
  refine ⟨?_, ⟨"Request failed with status code ", ": " ++ r.text, ?_⟩,
          ⟨"Request failed with status code " ++ toString r.status_code ++ ": ", "", ?_⟩, ?_⟩
  · unfold describe_image_with_model
    rw [hfs]
    simp [hnet, hst]
  · simp [String.append_assoc]
  · simp [String.append_empty]
  · unfold select_best_output_with_command_r
    simp [hnetj, hstj]

/-- C5 witness: a concrete 500 response with body "oops" yields exactly the formatted
failure string from both operations. -/
theorem c5_witness :
    ((describe_image_with_model fs_sample (net_fail 500 "oops") "p" "m" "i").2
        = .ok (.str ("Request failed with status code " ++ toString (500 : Nat)
                       ++ ": " ++ "oops")))
    ∧ ((select_best_output_with_command_r (net_fail 500 "oops") ["x"]).2
        = .ok (.str ("Request failed with status code " ++ toString (500 : Nat)
                       ++ ": " ++ "oops"))) :=
  ⟨(c5_failure_string_exact fs_sample (net_fail 500 "oops") "p" "m" "i" [1, 2, 3] ["x"]
      { status_code := 500, text := "oops", jsonBody := .null }
      { status_code := 500, text := "oops", jsonBody := .null }
      rfl rfl (by decide) rfl (by decide)).1,
   (c5_failure_string_exact fs_sample (net_fail 500 "oops") "p" "m" "i" [1, 2, 3] ["x"]
      { status_code := 500, text := "oops", jsonBody := .null }
      { status_code := 500, text := "oops", jsonBody := .null }
      rfl rfl (by decide) rfl (by decide)).2.2.2⟩

/-- C7: for an image path with no file, the Extractor raises a file-not-found condition
and issues no network request at all (its request trace is empty). -/
theorem c7_missing_file_no_request
    (fs : String → Option (List Nat)) (net : Request → HttpOutcome)
    (ip mn instr : String) (hfs : fs ip = none) :
    describe_image_with_model fs net ip mn instr = ([], .error (.fileNotFound ip)) := by
  unfold describe_image_with_model
  rw [hfs]

/-- C7 witness: on an empty file system the Extractor raises file-not-found for the
script's receipt path, with no request issued. -/
theorem c7_witness :
    fs_missing "data/receipt4.jpeg" = none
    ∧ describe_image_with_model fs_missing net_exn "data/receipt4.jpeg" "m" "i"
        = ([], .error (.fileNotFound "data/receipt4.jpeg")) :=
  ⟨rfl, c7_missing_file_no_request fs_missing net_exn "data/receipt4.jpeg" "m" "i" rfl⟩

/-- C10: a 200 response whose payload has an empty choices list makes the unguarded
access `result['choices'][0]['message']['content']` raise (IndexError) in both the
Extractor and the Selector, instead of returning a string. -/
theorem c10_unguarded_first_choice :
    (describe_image_with_model fs_sample net_empty_choices "p" "m" "i").2
      = .error .indexError
    ∧ (select_best_output_with_command_r net_empty_choices ["x"]).2
      = .error .indexError :=
  ⟨rfl, rfl⟩

/-- C2: every candidate appears verbatim in the rendered judge instruction inside its
labeled block `option_block n` (the block for 0-based position `n` carries the 1-based
label `Option (n+1)`), and for any two positions `m < n` the two labeled blocks appear
in the instruction in input order. -/
theorem c2_option_labels_ordered (outputs : List String) :
    (∀ n (hn : n < outputs.length), ∃ a b,
        judge_instruction outputs = a ++ option_block n (outputs.get ⟨n, hn⟩) ++ b)
    ∧ (∀ m n (hm : m < outputs.length) (hn : n < outputs.length), m < n → ∃ a b c,
        judge_instruction outputs
          = a ++ option_block m (outputs.get ⟨m, hm⟩) ++ b
              ++ option_block n (outputs.get ⟨n, hn⟩) ++ c) := by
  constructor
  · intro n hn
    obtain ⟨a, b, hab⟩ := join_enum_split "\n\n" outputs 0 n hn
    refine ⟨judge_template_before ++ a, b ++ judge_template_after, ?_⟩
    unfold judge_instruction formatted_outputs
    rw [show outputs.enum = List.enumFrom 0 outputs from rfl, hab]
    simp [String.append_assoc]
  · intro m n hm hn hmn
    obtain ⟨a, b, c, habc⟩ := join_enum_split₂ "\n\n" outputs 0 m n hm hn hmn
    refine ⟨judge_template_before ++ a, b, c ++ judge_template_after, ?_⟩
    unfold judge_instruction formatted_outputs
    rw [show outputs.enum = List.enumFrom 0 outputs from rfl, habc]
    simp [String.append_assoc]

/-- C2 witness: in a concrete two-candidate instruction, both labeled blocks appear,
in input order. -/
theorem c2_witness :
    (∃ a b, judge_instruction ["x", "y"] = a ++ option_block 0 "x" ++ b)
    ∧ (∃ a b c, judge_instruction ["x", "y"]
        = a ++ option_block 0 "x" ++ b ++ option_block 1 "y" ++ c) :=
  ⟨(c2_option_labels_ordered ["x", "y"]).1 0 (by decide),
   (c2_option_labels_ordered ["x", "y"]).2 0 1 (by decide) (by decide) (by decide)⟩

/-- C6: with the three candidates of the spec scenario, the Selector issues exactly its
one judge request, the block at position 1 is labeled exactly `Option 2` and carries the
Extractor failure text, and that block appears verbatim in the rendered instruction. -/
theorem c6_failure_text_shown_to_judge :
    (select_best_output_with_command_r net_exn
        ["<table A>", "Request failed with status code 500: error", "<table B>"]).1
      = [judge_request ["<table A>", "Request failed with status code 500: error", "<table B>"]]
    ∧ option_block 1 "Request failed with status code 500: error"
        = "Option 2:\nRequest failed with status code 500: error"
    ∧ ∃ a b, judge_instruction
          ["<table A>", "Request failed with status code 500: error", "<table B>"]
        = a ++ option_block 1 "Request failed with status code 500: error" ++ b := by
  refine ⟨select_trace _ _, rfl, ?_⟩
  obtain ⟨a, b, hab⟩ := join_enum_split "\n\n"
    ["<table A>", "Request failed with status code 500: error", "<table B>"] 0 1 (by decide)
  simp only [List.get] at hab
  refine ⟨judge_template_before ++ a, b ++ judge_template_after, ?_⟩
  unfold judge_instruction formatted_outputs
  rw [show (["<table A>", "Request failed with status code 500: error", "<table B>"] :
        List String).enum
      = List.enumFrom 0 ["<table A>", "Request failed with status code 500: error",
          "<table B>"] from rfl, hab]
  simp [String.append_assoc]

/-- C9: when the image file exists and every extraction returns a value, the driver
invokes the Extractor exactly once per provider, sequentially in list order (the request
trace is the list of per-provider requests, in order), collects exactly one output per
provider in the same order, and invokes the Selector exactly once with exactly those
outputs — so the judge receives as many candidates as there are providers. -/
theorem c9_pipeline_shape (fs : String → Option (List Nat)) (net : Request → HttpOutcome)
    (ms : List (String × String)) (bytes : List Nat)
    (hfs : fs image_path = some bytes)
    (hok : ∀ m ∈ ms, ∃ v,
        (describe_image_with_model fs net image_path m.1 instruction).2 = .ok v) :
    ∃ outs : List Json,
      run_extractions fs net ms
        = (ms.map fun m => describe_request bytes m.1 instruction, .ok outs)
      ∧ outs.length = ms.length
      ∧ (∀ n (h1 : n < ms.length) (h2 : n < outs.length),
          (describe_image_with_model fs net image_path (ms.get ⟨n, h1⟩).1 instruction).2
            = .ok (outs.get ⟨n, h2⟩))
      ∧ run_pipeline fs net ms
        = ((ms.map fun m => describe_request bytes m.1 instruction)
             ++ [judge_request (outs.map pyStr)],
           (select_best_output_with_command_r net (outs.map pyStr)).2) := by
  obtain ⟨outs, hrun, hlen, hget⟩ := run_extractions_spec fs net bytes hfs ms hok
  refine ⟨outs, hrun, hlen, hget, ?_⟩
  rcases hsel : select_best_output_with_command_r net (outs.map pyStr) with ⟨tr2, res⟩
  have htr2 : tr2 = [judge_request (outs.map pyStr)] := by
    have h := select_trace net (outs.map pyStr)
    rw [hsel] at h
    exact h
  simp [run_pipeline, hrun, hsel, htr2]

/-- C9 witness: with the script's fixed model list, a uniform success network and a
present image file, the pipeline issues one request per model followed by the single
judge request and collects one output per model. -/
theorem c9_witness :
    ∃ outs : List Json,
      run_extractions fs_sample (net_ok "T") models
        = (models.map fun m => describe_request [1, 2, 3] m.1 instruction, .ok outs)
      ∧ outs.length = models.length
      ∧ (∀ n (h1 : n < models.length) (h2 : n < outs.length),
          (describe_image_with_model fs_sample (net_ok "T") image_path
              (models.get ⟨n, h1⟩).1 instruction).2 = .ok (outs.get ⟨n, h2⟩))
      ∧ run_pipeline fs_sample (net_ok "T") models
        = ((models.map fun m => describe_request [1, 2, 3] m.1 instruction)
             ++ [judge_request (outs.map pyStr)],
           (select_best_output_with_command_r (net_ok "T") (outs.map pyStr)).2) :=
  c9_pipeline_shape fs_sample (net_ok "T") models [1, 2, 3] rfl
    (fun _ _ => ⟨.str "T", rfl⟩)

/-- C8: when the image file exists, the Extractor's single request embeds the file bytes
as a data URL whose media-type declaration is always `image/jpeg` — the fixed prefix
`data:image/jpeg;base64,` followed by the base64 encoding of the bytes, whatever the
bytes are — and the encoding is genuine base64 (length `4 * ceil(n/3)`, characters drawn
from the base64 alphabet plus `=` padding). -/
theorem c8_jpeg_data_url
    (fs : String → Option (List Nat)) (net : Request → HttpOutcome)
    (ip mn instr : String) (bytes : List Nat)
    (hfs : fs ip = some bytes) :
    (describe_image_with_model fs net ip mn instr).1 = [describe_request bytes mn instr]
    ∧ (describe_request bytes mn instr).payload.messages
        = [{ role := "user",
             content := .parts [.text instr,
               .image_url ("data:image/jpeg;base64," ++ base64Encode bytes)] }]
    ∧ (base64Encode bytes).length = 4 * ((bytes.length + 2) / 3)
    ∧ (∀ c ∈ (base64Encode bytes).data, c ∈ base64Chars ∨ c = '=') :=
  ⟨describe_trace_of_some fs net ip mn instr bytes hfs, rfl,
   base64Encode_length bytes, base64Encode_alphabet bytes⟩

/-- C8 witness: for the concrete bytes `[1, 2, 3]`, the Extractor issues its one request
and the base64 encoding has the padded-quad length. -/
theorem c8_witness :
    (describe_image_with_model fs_sample net_exn "p" "m" "i").1
      = [describe_request [1, 2, 3] "m" "i"]
    ∧ (base64Encode [1, 2, 3]).length = 4 * (([1, 2, 3].length + 2) / 3) :=
  ⟨(c8_jpeg_data_url fs_sample net_exn "p" "m" "i" [1, 2, 3] rfl).1,
   (c8_jpeg_data_url fs_sample net_exn "p" "m" "i" [1, 2, 3] rfl).2.2.1⟩

end ReceiptOCR
